import Mathlib

/-!
Verification of `packages/os/generate-eni-max-pods.py`.

The script fetches an AWS documentation page, parses it with BeautifulSoup,
picks the last `<table>` whose `len` (number of direct child nodes) exceeds 50,
iterates its `<tr>` rows, reads three `<td>` cells per row (instance type,
ENI count, IPs per ENI), computes `max_pods = (enis - 1) * (ips - 1) + 2`
and prints one line per successfully parsed row.

The embedding below models the HTML node tree, the BeautifulSoup operations the
script uses (`findAll`, `len`, `.text`, `.strip`), Python `int()` on the
stripped cell text, the row loop with its `try/except ValueError`, and the
overall run including the possible uncaught exceptions (`requests` transport
error, `NameError` on the undefined table variable `t`, `IndexError` on short
rows).
-/

mutual
/-- An HTML node: an element with a tag name and child nodes, or a text node.
Models the BeautifulSoup tree (`Tag` / `NavigableString`). -/
inductive Node where
  | elem (tag : String) (children : NodeList)
  | text (s : String)
/-- A sequence of sibling HTML nodes. -/
inductive NodeList where
  | nil
  | cons (head : Node) (tail : NodeList)
end

/-- Build a `NodeList` from a Lean list of nodes. -/
def NodeList.ofList : List Node → NodeList
  | [] => .nil
  | n :: ns => .cons n (NodeList.ofList ns)

/-- Number of nodes in a sibling sequence. -/
def NodeList.length : NodeList → Nat
  | .nil => 0
  | .cons _ ns => 1 + ns.length

mutual
/-- All elements with the given tag name among a node and its descendants, in
document (pre-)order. -/
def findAllN (name : String) : Node → List Node
  | .text _ => []
  | .elem t cs => (if t = name then [Node.elem t cs] else []) ++ findAllNL name cs
/-- All elements with the given tag name in a forest, in document order.
Models BeautifulSoup `find_all(name)` applied to the parent of the forest. -/
def findAllNL (name : String) : NodeList → List Node
  | .nil => []
  | .cons n ns => findAllN name n ++ findAllNL name ns
end

/-- `n.find_all(name)`: matching descendants of `n` (not `n` itself). -/
def findAllWithin (name : String) (n : Node) : List Node :=
  match n with
  | .text _ => []
  | .elem _ cs => findAllNL name cs

/-- Models Python `len(tag)` on a BeautifulSoup `Tag`: the number of direct
child nodes (`len(tag.contents)`), elements and text nodes alike. -/
def lenTag : Node → Nat
  | .text _ => 0
  | .elem _ cs => cs.length

mutual
/-- All text contained in a node, concatenated in document order. -/
def getText : Node → String
  | .text s => s
  | .elem _ cs => getTextL cs
/-- All text contained in a forest, concatenated in document order. -/
def getTextL : NodeList → String
  | .nil => ""
  | .cons n ns => getText n ++ getTextL ns
end

mutual
/-- Number of elements in a subtree, the root counted when it is an element. -/
def elemCountN : Node → Nat
  | .text _ => 0
  | .elem _ cs => 1 + elemCountL cs
/-- Number of elements in a forest, descendants counted. -/
def elemCountL : NodeList → Nat
  | .nil => 0
  | .cons n ns => elemCountN n + elemCountL ns
end

/-- Total descendant-element count of a node (the node itself not counted).
Used only to state the spec's wording of the table-selection heuristic. -/
def descElemCount : Node → Nat
  | .text _ => 0
  | .elem _ cs => elemCountL cs

/-- Python whitespace characters recognised by `str.strip()` (ASCII range). -/
def isPySpace (c : Char) : Bool :=
  c = ' ' || c = '\t' || c = '\n' || c = '\r' || c = '\x0b' || c = '\x0c'

/-- Python `str.strip()`: remove leading and trailing whitespace. -/
def pyStrip (s : String) : String :=
  String.mk (((s.data.dropWhile isPySpace).reverse.dropWhile isPySpace).reverse)

/-- Numeric value of an ASCII digit character. -/
def digitVal (c : Char) : Nat := c.toNat - 48

/-- Value of a Python decimal digit run `digit (["_"] digit)*`, continuing
after an initial digit of value `acc`. -/
def pyDigitsGo (acc : Nat) : List Char → Option Nat
  | [] => some acc
  | '_' :: [] => none
  | '_' :: c :: cs => if c.isDigit then pyDigitsGo (acc * 10 + digitVal c) cs else none
  | c :: cs => if c.isDigit then pyDigitsGo (acc * 10 + digitVal c) cs else none

/-- Value of a nonempty Python decimal digit run (PEP 515 single underscores
between digits allowed), or `none`. -/
def pyDigits : List Char → Option Nat
  | [] => none
  | c :: cs => if c.isDigit then pyDigitsGo (digitVal c) cs else none

/-- Models Python `int(s)` on an already-stripped string: an optional sign
followed by a nonempty decimal digit run; `none` models the raised
`ValueError`. (Non-ASCII Unicode digits, accepted by CPython, are not
modelled: no cell text in question contains them.) -/
def pyInt (s : String) : Option Int :=
  match s.data with
  | [] => none
  | '+' :: cs => (pyDigits cs).map (fun n => (n : Int))
  | '-' :: cs => (pyDigits cs).map (fun n => -(n : Int))
  | cs => (pyDigits cs).map (fun n => (n : Int))

/-- `max_pods = (instance_enis - 1) * (ips_per_eni - 1) + 2`, line 31 of the
script. Plain mathematical integers: Python ints are unbounded. -/
def max_pods (instance_enis ips_per_eni : Int) : Int :=
  (instance_enis - 1) * (ips_per_eni - 1) + 2

/-- The uncaught Python exceptions the script can die of. -/
inductive PyError where
  | requestsError
  | nameError
  | indexError
deriving DecidableEq, Repr

/-- One iteration of the row loop, on the `.text` values of the row's data
cells: `.ok none` is `continue` (zero cells, or `int()` raised `ValueError`
which the `except ValueError` clause turns into `continue`); `.ok (some line)`
is the printed line; `.error .indexError` is an uncaught `IndexError` from
`cells[1]` or `cells[2]` on a short row. -/
def processCells : List String → Except PyError (Option String)
  | [] => .ok none
  | [_] => .error .indexError
  | t0 :: t1 :: rest =>
      match pyInt (pyStrip t1) with
      | none => .ok none
      | some enis =>
          match rest with
          | [] => .error .indexError
          | t2 :: _ =>
              match pyInt (pyStrip t2) with
              | none => .ok none
              | some ips =>
                  .ok (some (pyStrip t0 ++ " " ++ toString (max_pods enis ips)))

/-- One iteration of the row loop on a `<tr>` node: collect the `<td>` cells
and process their text. -/
def processRow (row : Node) : Except PyError (Option String) :=
  processCells ((findAllWithin "td" row).map getText)

/-- The line the row contributes to standard output, if any. -/
def rowLine (row : Node) : Option String :=
  match processRow row with
  | .ok o => o
  | .error _ => none

/-- Whether the row loop survives this row (no uncaught exception). -/
def rowOk (row : Node) : Bool :=
  match processRow row with
  | .ok _ => true
  | .error _ => false

/-- The row loop: the lines printed, and the uncaught exception that aborted
the loop, if any. Once a row raises, no further row is processed and no
further line is printed. -/
def runRows : List Node → List String × Option PyError
  | [] => ([], none)
  | r :: rs =>
      match processRow r with
      | .error e => ([], some e)
      | .ok none => runRows rs
      | .ok (some line) => (line :: (runRows rs).1, (runRows rs).2)

/-- The table-selection loop: `t` is overwritten by every table with
`len(table) > 50`; `none` models `t` never having been assigned. -/
def selectTable (tables : List Node) : Option Node :=
  tables.foldl (fun acc tb => if lenTag tb > 50 then some tb else acc) none

/-- The selection condition of the script, as a Boolean. -/
def qualifying (tb : Node) : Bool := lenTag tb > 50

/-- The script from the parsed document onward: select the table (dying with
`NameError` if `t` was never assigned), then run the row loop on its `<tr>`
descendants. Returns the stdout lines and the uncaught exception, if any. -/
def runDoc (doc : NodeList) : List String × Option PyError :=
  match selectTable (findAllNL "table" doc) with
  | none => ([], some .nameError)
  | some t => runRows (findAllWithin "tr" t)

/-- Outcome of `requests.get`: a raised transport exception, or a response
with an HTTP status code and a body. `requests.get` returns normally for any
status code; it raises only on transport failures. The body is modelled as the
already-parsed node forest (the BeautifulSoup parsing step itself is total and
not modelled). -/
inductive FetchOutcome where
  | exn
  | response (status : Nat) (body : NodeList)

/-- The whole script: a raised transport exception aborts it before any
output; otherwise the body is processed, the status code never being
inspected. -/
def runScript : FetchOutcome → List String × Option PyError
  | .exn => ([], some .requestsError)
  | .response _ body => runDoc body

/-- Process exit code: 0 on normal completion, 1 when the script died of an
uncaught exception. -/
def exitCode (r : List String × Option PyError) : Nat :=
  match r.2 with
  | none => 0
  | some _ => 1

/-- Modelled from the spec: table selection as the spec words it, picking the
last table whose total descendant-element count exceeds 50 (to be compared
with `selectTable`, which follows the source's `len(table)`). -/
def selectTableSpec (tables : List Node) : Option Node :=
  tables.foldl (fun acc tb => if descElemCount tb > 50 then some tb else acc) none

/-! ## Concrete fixtures used by witnesses and counterexamples -/

/-- A `<td>` cell containing the given text. -/
def td (s : String) : Node := Node.elem "td" (.cons (.text s) .nil)

/-- A `<tr>` row with the given cells. -/
def tr (cells : List Node) : Node := Node.elem "tr" (NodeList.ofList cells)

/-- A well-formed data row: `["t3.micro", "2", "4"]`. -/
def trGood : Node := tr [td "t3.micro", td "2", td "4"]

/-- A two-cell row whose second cell is numeric: `["a", "2"]`. -/
def trShort : Node := tr [td "a", td "2"]

/-- A one-cell row: `["solo"]`. -/
def trOneCell : Node := tr [td "solo"]

/-- A row whose interface count is not numeric: `["bad", "x", "4"]`. -/
def trBad : Node := tr [td "bad", td "x", td "4"]

/-- A pure header row: one `<th>` cell, no `<td>` cells. -/
def trHeader : Node := tr [Node.elem "th" (.cons (.text "Type") .nil)]

/-- A data row with a zero ENI count: `["m0.zero", "0", "5"]`. -/
def trZero : Node := tr [td "m0.zero", td "0", td "5"]

/-- Filler element used to push a table over the 50-child threshold. -/
def filler : Node := Node.elem "p" .nil

/-- A qualifying table (53 direct children) whose rows are `trShort` then
`trGood`. -/
def bigTable : Node :=
  Node.elem "table" (NodeList.ofList (List.replicate 51 filler ++ [trShort, trGood]))

/-- A document holding just `bigTable`. -/
def docCrash : NodeList := .cons bigTable .nil

/-- A qualifying table (52 direct children) whose only row is `trGood`. -/
def goodTable : Node :=
  Node.elem "table" (NodeList.ofList (List.replicate 51 filler ++ [trGood]))

/-- A document holding just `goodTable`. -/
def docGood : NodeList := .cons goodTable .nil

/-- A table with 60 direct element children (both `len` and descendant count
exceed 50). -/
def tableA : Node := Node.elem "table" (NodeList.ofList (List.replicate 60 filler))

/-- A table with a single direct child wrapping 60 elements: descendant count
61, but `len` is 1. -/
def tableB : Node :=
  Node.elem "table"
    (.cons (Node.elem "div" (NodeList.ofList (List.replicate 60 filler))) .nil)

/-- A document holding `tableA` then `tableB`. -/
def docTwoTables : NodeList := .cons tableA (.cons tableB .nil)

/-- A document whose only table has a single child, below the threshold. -/
def docSmall : NodeList := .cons (Node.elem "table" (.cons trGood .nil)) .nil

/-! ## Helper lemmas -/

/-- The table-selection fold returns the last qualifying table: it equals
`find?` on the reversed table list. -/
theorem selectTable_eq_find (tables : List Node) :
    selectTable tables = tables.reverse.find? qualifying := by
  suffices h : ∀ acc : Option Node,
      tables.foldl (fun acc tb => if lenTag tb > 50 then some tb else acc) acc
        = (tables.reverse.find? qualifying).or acc by
    have h0 := h none
    rw [Option.or_none] at h0
    exact h0
  induction tables with
  | nil => intro acc; simp
  | cons x l ih =>
      intro acc
      rw [List.foldl_cons, ih, List.reverse_cons, List.find?_append, Option.or_assoc]
      congr 1
      by_cases hx : lenTag x > 50
      · simp [List.find?, qualifying, hx]
      · simp [List.find?, qualifying, hx]

/-- If no table qualifies, the selection fold leaves `t` unassigned. -/
theorem selectTable_eq_none (tables : List Node)
    (h : ∀ tb ∈ tables, lenTag tb ≤ 50) : selectTable tables = none := by
  rw [selectTable_eq_find]
  rw [List.find?_eq_none]
  intro x hx
  have hle := h x (List.mem_reverse.mp hx)
  simp only [qualifying]
  simp only [decide_eq_true_eq]
  omega

/-- Surrounding whitespace does not change the result of `str.strip()`. -/
theorem pyStrip_pad (a b : List Char) (s : String)
    (ha : ∀ c ∈ a, isPySpace c = true) (hb : ∀ c ∈ b, isPySpace c = true) :
    pyStrip (String.mk (a ++ s.data ++ b)) = pyStrip s := by
  unfold pyStrip
  congr 1
  show (((a ++ s.data ++ b).dropWhile isPySpace).reverse.dropWhile isPySpace).reverse
      = ((s.data.dropWhile isPySpace).reverse.dropWhile isPySpace).reverse
  rw [List.append_assoc, List.dropWhile_append_of_pos ha]
  rw [List.dropWhile_append]
  by_cases hd : (s.data.dropWhile isPySpace).isEmpty
  · have hnil : s.data.dropWhile isPySpace = [] := by
      cases hcase : s.data.dropWhile isPySpace with
      | nil => rfl
      | cons y ys => rw [hcase] at hd; simp [List.isEmpty] at hd
    have hbnil : b.dropWhile isPySpace = [] := List.dropWhile_eq_nil_iff.mpr hb
    simp [hd, hnil, hbnil]
  · rw [if_neg hd]
    rw [List.reverse_append]
    rw [List.dropWhile_append_of_pos (fun c hc => hb c (List.mem_reverse.mp hc))]

/-- Helper for C2: when no row raises an uncaught exception, the row loop
emits exactly the lines of the successfully parsed rows, in row order. -/
theorem runRows_eq_filterMap (rows : List Node) (h : ∀ r ∈ rows, rowOk r = true) :
    runRows rows = (rows.filterMap rowLine, none) := by
  induction rows with
  | nil => rfl
  | cons r rs ih =>
      have hr := h r (List.mem_cons_self r rs)
      have hrs := ih (fun x hx => h x (List.mem_cons_of_mem r hx))
      cases hpr : processRow r with
      | error e => simp [rowOk, hpr] at hr
      | ok o =>
          cases o with
          | none => simp [runRows, hpr, hrs, List.filterMap_cons, rowLine]
          | some line => simp [runRows, hpr, hrs, List.filterMap_cons, rowLine]

/-! ## Claims -/

/-- C1: for all integers `e ≥ 1` and `i ≥ 1`, the capacity calculator computes
`max_pods e i = (e - 1) * (i - 1) + 2`; in particular `max_pods 4 30 = 89`. -/
theorem max_pods_formula (e i : Int) (he : 1 ≤ e) (hi : 1 ≤ i) :
    max_pods e i = (e - 1) * (i - 1) + 2 ∧ max_pods 4 30 = 89 :=
  ⟨rfl, by decide⟩

/-- C1, witness: the formula at `e = 4`, `i = 30`. -/
theorem max_pods_formula_witness :
    max_pods 4 30 = (4 - 1) * (30 - 1) + 2 ∧ max_pods 4 30 = 89 :=
  max_pods_formula 4 30 (by decide) (by decide)

/-- C2, counterexample: `trGood` (cells `["t3.micro", "2", "4"]`) parses
successfully, and is a row of the selected table of `docCrash`, yet the run
emits no line for it: the preceding two-cell row `trShort` raises an uncaught
`IndexError` that kills the program first. -/
theorem parsed_row_after_crashing_row_emits_no_line :
    processRow trGood = .ok (some "t3.micro 5") ∧
    selectTable (findAllNL "table" docCrash) = some bigTable ∧
    findAllWithin "tr" bigTable = [trShort, trGood] ∧
    runDoc docCrash = ([], some PyError.indexError) :=
  ⟨rfl, rfl, rfl, rfl⟩

/-- C2, amended: provided no row of the table raises an uncaught exception
(rows with one cell, or two cells the second of which is numeric, raise an
uncaught `IndexError` that terminates the program and suppresses all later
rows), every successfully parsed row emits exactly one line, in row order, and
skipped rows emit nothing; a row with cells `["t3.micro", "2", "4"]` produces
exactly the line `"t3.micro 5"`. -/
theorem rows_emit_one_line_in_order (rows : List Node)
    (h : ∀ r ∈ rows, rowOk r = true) :
    runRows rows = (rows.filterMap rowLine, none) ∧
    processCells ["t3.micro", "2", "4"] = .ok (some "t3.micro 5") :=
  ⟨runRows_eq_filterMap rows h, rfl⟩

/-- C2, witness: the loop over `[trBad, trGood]` emits exactly `"t3.micro 5"`. -/
theorem rows_emit_one_line_in_order_witness :
    runRows [trBad, trGood] = (["t3.micro 5"], none) := by
  have h := (rows_emit_one_line_in_order [trBad, trGood] (by decide)).1
  exact h.trans rfl

/-- C3, counterexample: in `docTwoTables`, both tables have total
descendant-element counts over 50 (60 and 61), so selection by descendant
count would pick the last one, `tableB`; the script instead tests
`len(table)` — direct children — and picks `tableA`. -/
theorem table_selection_ignores_descendant_count :
    descElemCount tableA = 60 ∧ descElemCount tableB = 61 ∧
    findAllNL "table" docTwoTables = [tableA, tableB] ∧
    selectTableSpec [tableA, tableB] = some tableB ∧
    selectTable [tableA, tableB] = some tableA ∧
    tableA ≠ tableB := by
  refine ⟨rfl, rfl, rfl, rfl, rfl, ?_⟩
  intro hEq
  have h1 : (60 : Nat) = 1 := congrArg lenTag hEq
  exact absurd h1 (by decide)

/-- C3, amended: the locator examines every table and selects the last table
encountered whose number of direct child nodes (`len(table)`) exceeds 50 —
equivalently, `find?` on the reversed table list; with several qualifying
tables, the last, not the first, is selected. -/
theorem selectTable_picks_last_by_direct_children (tables : List Node)
    (t1 t2 : Node) (h1 : qualifying t1 = true) (h2 : qualifying t2 = true) :
    selectTable tables = tables.reverse.find? qualifying ∧
    selectTable [t1, t2] = some t2 := by
  refine ⟨selectTable_eq_find tables, ?_⟩
  rw [selectTable_eq_find]
  simp [h2]

/-- C3, witness: with two qualifying tables the last one is selected. -/
theorem selectTable_picks_last_witness :
    selectTable [tableA, bigTable] = some bigTable :=
  (selectTable_picks_last_by_direct_children [tableA, bigTable] tableA bigTable
    (by decide) (by decide)).2

/-- C4, counterexample: on a simulated non-200 response whose body contains a
qualifying table, the script emits a data line and exits zero: `requests.get`
does not raise on a non-success HTTP status and the script never inspects the
status code. -/
theorem non_success_status_still_emits :
    runScript (.response 404 docGood) = (["t3.micro 5"], none) ∧
    exitCode (runScript (.response 404 docGood)) = 0 :=
  ⟨rfl, rfl⟩

/-- C4, amended: a transport-level fetch failure (a raised `requests`
exception) terminates the run with a non-zero exit code and no data lines; a
non-success HTTP status is not detected — the response body is processed
exactly as a successful one, the status code being ignored. -/
theorem transport_error_fatal_status_ignored (status : Nat) (body : NodeList) :
    runScript .exn = ([], some PyError.requestsError) ∧
    exitCode (runScript .exn) = 1 ∧
    runScript (.response status body) = runDoc body :=
  ⟨rfl, rfl, rfl⟩

/-- C5: a row whose cell 1 or cell 2 exists but fails integer conversion is
skipped silently — it contributes no line, not even a partial one — and the
loop continues with the remaining rows. -/
theorem conversion_failure_row_skipped (t0 t1 t2 : String) (cs : List String)
    (row : Node) (rows : List Node)
    (hconv : pyInt (pyStrip t1) = none ∨ pyInt (pyStrip t2) = none)
    (hrow : processRow row = .ok none) :
    processCells (t0 :: t1 :: t2 :: cs) = .ok none ∧
    runRows (row :: rows) = runRows rows := by
  constructor
  · cases h1 : pyInt (pyStrip t1) with
    | none => simp [processCells, h1]
    | some e =>
        cases hconv with
        | inl h => simp [h] at h1
        | inr h2 => simp [processCells, h1, h2]
  · simp [runRows, hrow]

/-- C5, witness: the row `["bad", "x", "4"]` is skipped and the loop goes on. -/
theorem conversion_failure_row_skipped_witness :
    processCells ["bad", "x", "4"] = .ok none ∧
    runRows [trBad, trGood] = runRows [trGood] :=
  conversion_failure_row_skipped "bad" "x" "4" [] trBad [trGood]
    (Or.inl (by decide)) rfl

/-- C6, counterexample: a two-cell row (`["a", "2"]`) and a one-cell row
(`["solo"]`) are not skipped: the out-of-range cell access raises an uncaught
`IndexError` (only `ValueError` is caught), and the program stops instead of
continuing with the remaining rows. -/
theorem short_rows_crash_not_skipped :
    processRow trShort = .error PyError.indexError ∧
    processRow trOneCell = .error PyError.indexError ∧
    runRows [trOneCell, trGood] = ([], some PyError.indexError) :=
  ⟨rfl, rfl, rfl⟩

/-- C6, amended: a row with exactly one data cell, or exactly two data cells
the second of which converts to an integer, raises an uncaught `IndexError`
terminating the program with the remaining rows unprocessed; only a two-cell
row whose second cell already fails integer conversion is skipped like a
conversion failure. -/
theorem short_row_raises_uncaught_index_error (t0 t1 : String) (e : Int)
    (row : Node) (rows : List Node)
    (h1 : pyInt (pyStrip t1) = some e)
    (hrow : processRow row = .error PyError.indexError) :
    processCells [t0] = .error PyError.indexError ∧
    processCells [t0, t1] = .error PyError.indexError ∧
    runRows (row :: rows) = ([], some PyError.indexError) ∧
    (∀ u : String, pyInt (pyStrip u) = none → processCells [t0, u] = .ok none) := by
  refine ⟨rfl, ?_, ?_, ?_⟩
  · simp [processCells, h1]
  · simp [runRows, hrow]
  · intro u hu; simp [processCells, hu]

/-- C6, witness: the two-cell row `["a", "2"]` kills the loop. -/
theorem short_row_raises_witness :
    processCells ["a"] = .error PyError.indexError ∧
    processCells ["a", "2"] = .error PyError.indexError ∧
    runRows [trShort, trGood] = ([], some PyError.indexError) := by
  have h := short_row_raises_uncaught_index_error "a" "2" 2 trShort [trGood]
    (by decide) rfl
  exact ⟨h.1, h.2.1, h.2.2.1⟩

/-- C7: a row with zero data cells (e.g. a pure header row made of `<th>`
cells) is skipped — it emits nothing and the loop continues with the next
row. -/
theorem zero_cell_row_skipped (row : Node) (rows : List Node)
    (h : findAllWithin "td" row = []) :
    processRow row = .ok none ∧ runRows (row :: rows) = runRows rows := by
  have hp : processRow row = .ok none := by
    rw [processRow, h]; rfl
  exact ⟨hp, by simp [runRows, hp]⟩

/-- C7, witness: the `<th>`-only header row is skipped. -/
theorem zero_cell_row_skipped_witness :
    processRow trHeader = .ok none ∧
    runRows [trHeader, trGood] = runRows [trGood] :=
  zero_cell_row_skipped trHeader [trGood] rfl

/-- C8: when no table in the document exceeds the 50 threshold, the run dies
(with the `NameError` on the never-assigned `t`) before iterating any row:
the exit code is non-zero and no data line is emitted. -/
theorem no_qualifying_table_fails_before_rows (status : Nat) (body : NodeList)
    (h : ∀ tb ∈ findAllNL "table" body, lenTag tb ≤ 50) :
    runScript (.response status body) = ([], some PyError.nameError) ∧
    exitCode (runScript (.response status body)) = 1 := by
  have hsel : selectTable (findAllNL "table" body) = none := selectTable_eq_none _ h
  constructor
  · show runDoc body = _
    simp [runDoc, hsel]
  · show exitCode (runDoc body) = 1
    simp [runDoc, hsel, exitCode]

/-- C8, witness: a document whose only table has one child. -/
theorem no_qualifying_table_witness :
    runScript (.response 200 docSmall) = ([], some PyError.nameError) ∧
    exitCode (runScript (.response 200 docSmall)) = 1 :=
  no_qualifying_table_fails_before_rows 200 docSmall (by decide)

/-- C9: the formula is applied with no bounds checking — any parsed pair of
integers is accepted and the line is emitted; with `eni_count = 0` and
`ips_per_eni = 5` the value is the nonsensical `-2`, still emitted. -/
theorem formula_applied_without_bounds_check (t0 t1 t2 : String)
    (cs : List String) (e i : Int)
    (h1 : pyInt (pyStrip t1) = some e) (h2 : pyInt (pyStrip t2) = some i) :
    processCells (t0 :: t1 :: t2 :: cs)
      = .ok (some (pyStrip t0 ++ " " ++ toString (max_pods e i))) ∧
    max_pods 0 5 = -2 := by
  refine ⟨?_, by decide⟩
  simp [processCells, h1, h2]

/-- C9, witness: the row `["m0.zero", "0", "5"]` emits `"m0.zero -2"`. -/
theorem formula_without_bounds_check_witness :
    processCells ["m0.zero", "0", "5"] = .ok (some "m0.zero -2") ∧
    max_pods 0 5 = -2 := by
  have h := formula_applied_without_bounds_check "m0.zero" "0" "5" [] 0 5
    (by decide) (by decide)
  exact ⟨h.1.trans rfl, h.2⟩

/-- C10: the emitted instance type is the text of cell 0 with surrounding
whitespace stripped, and cells 1 and 2 are accepted as integers even when
their text carries surrounding whitespace (`.strip()` is applied before
`int()`). -/
theorem whitespace_stripped_before_use (a1 b1 a2 b2 : List Char)
    (t0 t1 t2 : String) (cs : List String) (e i : Int)
    (ha1 : ∀ c ∈ a1, isPySpace c = true) (hb1 : ∀ c ∈ b1, isPySpace c = true)
    (ha2 : ∀ c ∈ a2, isPySpace c = true) (hb2 : ∀ c ∈ b2, isPySpace c = true)
    (h1 : pyInt (pyStrip t1) = some e) (h2 : pyInt (pyStrip t2) = some i) :
    processCells
        (t0 :: String.mk (a1 ++ t1.data ++ b1) :: String.mk (a2 ++ t2.data ++ b2) :: cs)
      = .ok (some (pyStrip t0 ++ " " ++ toString (max_pods e i))) := by
  have e1 : pyStrip (String.mk (a1 ++ t1.data ++ b1)) = pyStrip t1 :=
    pyStrip_pad a1 b1 t1 ha1 hb1
  have e2 : pyStrip (String.mk (a2 ++ t2.data ++ b2)) = pyStrip t2 :=
    pyStrip_pad a2 b2 t2 ha2 hb2
  rw [List.append_assoc] at e1 e2
  simp [processCells, e1, e2, h1, h2]

/-- C10, witness: `["  t3.micro ", " 2 \t", "\n4"]` emits `"t3.micro 5"`. -/
theorem whitespace_stripped_witness :
    processCells
        ["  t3.micro ", String.mk ([' '] ++ "2".data ++ [' ', '\t']),
          String.mk (['\n'] ++ "4".data ++ [])]
      = .ok (some "t3.micro 5") := by
  have h := whitespace_stripped_before_use [' '] [' ', '\t'] ['\n'] []
    "  t3.micro " "2" "4" [] 2 4
    (by decide) (by decide) (by decide) (by decide) (by decide) (by decide)
  exact h.trans rfl
